import Mathlib

/-!
Verification development for the configuration resolver of a NestJS starter
template and its Docker health-check script.

The resolver (src/config/configuration.ts) reads an environment-variable
snapshot, builds a base configuration table (src/config/default.config.ts),
selects one of three environment overlays (development.config.ts,
production.config.ts, test.config.ts) by the literal NODE_ENV name, and
produces the final record by a one-level object spread per section.

The embedding below models the snapshot as a record of optional values for
the nine environment variables the resolver reads, and models each zero
argument skipIf closure by the boolean it returns when evaluated against
that same snapshot.
-/

namespace NestConfig

/-- JavaScript String.prototype.split with a one-character separator:
splits into the (possibly empty) chunks between separator occurrences;
the empty string yields a single empty chunk. -/
def splitCharAux (sep : Char) : List Char → List (List Char)
  | [] => [[]]
  | c :: cs =>
    match splitCharAux sep cs with
    | [] => [[]]
    | g :: gs => if c = sep then [] :: g :: gs else (c :: g) :: gs

/-- JavaScript s.split(sep) for a single-character separator string. -/
def jsSplit (s : String) (sep : Char) : List String :=
  (splitCharAux sep s.data).map (fun l => ⟨l⟩)

/-- JavaScript String.prototype.trim: drop whitespace from both ends. -/
def jsTrim (s : String) : String :=
  ⟨((s.data.dropWhile Char.isWhitespace).reverse.dropWhile Char.isWhitespace).reverse⟩

/-- Whether the first character list is an initial segment of the second. -/
def isLeadingSegment : List Char → List Char → Bool
  | [], _ => true
  | _ :: _, [] => false
  | a :: as, b :: bs => a = b && isLeadingSegment as bs

/-- Whether the first character list occurs contiguously in the second. -/
def occursIn (sub : List Char) : List Char → Bool
  | [] => isLeadingSegment sub []
  | c :: cs => isLeadingSegment sub (c :: cs) || occursIn sub cs

/-- JavaScript String.prototype.includes for plain substrings: true iff the
second string occurs inside the first. -/
def jsIncludes (s sub : String) : Bool :=
  occursIn sub.data s.data

/-- The environment-variable snapshot handed to the resolver, restricted to
the nine variables read by the configuration files. A `none` field is an
unset variable. Numeric and boolean variables are modelled post conversion
(the code documents that ConfigService converts them when the type
parameter is given); LOG_PRETTY stays a string because the code compares it
with the literal string "true" itself. -/
structure Env where
  NODE_ENV : Option String
  PORT : Option Int
  APP_NAME : Option String
  ALLOWED_ORIGINS : Option String
  CORS_CREDENTIALS : Option Bool
  THROTTLE_TTL : Option Int
  THROTTLE_LIMIT : Option Int
  LOG_LEVEL : Option String
  LOG_PRETTY : Option String
deriving DecidableEq, Repr

/-- ConfigService.get<string>(key, default): the variable when set, the
default otherwise. -/
def getD (v : Option α) (dflt : α) : α := v.getD dflt

/-- cors.origin is string[] | string | boolean in the interface. -/
inductive OriginSetting
  | list (origins : List String)
  | single (origin : String)
  | flag (b : Bool)
deriving DecidableEq, Repr

/-- helmet.frameguard is { action: deny } | false. -/
inductive FrameguardSetting
  | disabled
  | actionDeny
deriving DecidableEq, Repr

/-- helmet.dnsPrefetchControl is { allow: boolean } | false. -/
inductive DnsPrefetchSetting
  | disabled
  | allow (b : Bool)
deriving DecidableEq, Repr

/-- helmet.hsts is { maxAge, includeSubDomains, preload } | false. -/
inductive HstsSetting
  | disabled
  | enabled (maxAge : Int) (includeSubDomains : Bool) (preload : Bool)
deriving DecidableEq, Repr

structure AppSection where
  env : String
  port : Int
  name : String
deriving DecidableEq, Repr

structure CorsSection where
  credentials : Bool
  origin : OriginSetting
  methods : List String
  allowedHeaders : List String
  exposedHeaders : List String
  maxAge : Int
deriving DecidableEq, Repr

structure Throttler where
  ttl : Int
  limit : Int
deriving DecidableEq, Repr

/-- throttle section; skipIf holds the boolean the zero-argument closure
returns when evaluated against the snapshot the record was built from. -/
structure ThrottleSection where
  throttlers : List Throttler
  skipIf : Bool
deriving DecidableEq, Repr

structure HelmetSection where
  frameguard : FrameguardSetting
  noSniff : Bool
  hidePoweredBy : Bool
  dnsPrefetchControl : DnsPrefetchSetting
  ieNoOpen : Bool
  hsts : HstsSetting
deriving DecidableEq, Repr

structure LoggingSection where
  level : String
  prettyPrint : Bool
deriving DecidableEq, Repr

/-- The merged configuration record (interface AppConfig). -/
structure AppConfig where
  app : AppSection
  cors : CorsSection
  throttle : ThrottleSection
  helmet : HelmetSection
  logging : LoggingSection
deriving DecidableEq, Repr

/-! Sparse overlays: each overlay object carries only the keys its literal
actually writes, so a `none` field is an absent key (Partial<AppConfig>). -/

structure AppPartial where
  env : Option String := none
  port : Option Int := none
  name : Option String := none
deriving DecidableEq, Repr

structure CorsPartial where
  credentials : Option Bool := none
  origin : Option OriginSetting := none
  methods : Option (List String) := none
  allowedHeaders : Option (List String) := none
  exposedHeaders : Option (List String) := none
  maxAge : Option Int := none
deriving DecidableEq, Repr

structure ThrottlePartial where
  throttlers : Option (List Throttler) := none
  skipIf : Option Bool := none
deriving DecidableEq, Repr

structure HelmetPartial where
  frameguard : Option FrameguardSetting := none
  noSniff : Option Bool := none
  hidePoweredBy : Option Bool := none
  dnsPrefetchControl : Option DnsPrefetchSetting := none
  ieNoOpen : Option Bool := none
  hsts : Option HstsSetting := none
deriving DecidableEq, Repr

structure LoggingPartial where
  level : Option String := none
  prettyPrint : Option Bool := none
deriving DecidableEq, Repr

/-- Partial<AppConfig>: an overlay may omit whole sections. -/
structure ConfigPartial where
  app : Option AppPartial := none
  cors : Option CorsPartial := none
  throttle : Option ThrottlePartial := none
  helmet : Option HelmetPartial := none
  logging : Option LoggingPartial := none
deriving DecidableEq, Repr

/-! One-level object spread per section, as written in configuration.ts:
`{ ...baseSection, ...overlaySection }`. Spreading an absent section is a
no-op; spreading a present partial overwrites exactly the keys it carries. -/

def spreadApp (b : AppSection) : Option AppPartial → AppSection
  | none => b
  | some p => { env := getD p.env b.env, port := getD p.port b.port, name := getD p.name b.name }

def spreadCors (b : CorsSection) : Option CorsPartial → CorsSection
  | none => b
  | some p =>
    { credentials := getD p.credentials b.credentials
      origin := getD p.origin b.origin
      methods := getD p.methods b.methods
      allowedHeaders := getD p.allowedHeaders b.allowedHeaders
      exposedHeaders := getD p.exposedHeaders b.exposedHeaders
      maxAge := getD p.maxAge b.maxAge }

def spreadThrottle (b : ThrottleSection) : Option ThrottlePartial → ThrottleSection
  | none => b
  | some p => { throttlers := getD p.throttlers b.throttlers, skipIf := getD p.skipIf b.skipIf }

def spreadHelmet (b : HelmetSection) : Option HelmetPartial → HelmetSection
  | none => b
  | some p =>
    { frameguard := getD p.frameguard b.frameguard
      noSniff := getD p.noSniff b.noSniff
      hidePoweredBy := getD p.hidePoweredBy b.hidePoweredBy
      dnsPrefetchControl := getD p.dnsPrefetchControl b.dnsPrefetchControl
      ieNoOpen := getD p.ieNoOpen b.ieNoOpen
      hsts := getD p.hsts b.hsts }

def spreadLogging (b : LoggingSection) : Option LoggingPartial → LoggingSection
  | none => b
  | some p => { level := getD p.level b.level, prettyPrint := getD p.prettyPrint b.prettyPrint }

/-- default.config.ts: the base table. Every leaf is an environment-variable
lookup with a hard-coded fallback. The base skipIf closure reads
process.env.NODE_ENV at call time and compares it with the literal
"production"; against the fixed snapshot that is the boolean recorded here.
The base hsts leaf checks NODE_ENV with no default. -/
def defaultConfig (e : Env) : AppConfig :=
  { app :=
      { env := getD e.NODE_ENV "development"
        port := getD e.PORT 3000
        name := getD e.APP_NAME "nestjs-app" }
    cors :=
      { credentials := false
        origin := .flag true
        methods := ["GET", "POST", "PUT", "PATCH", "DELETE", "OPTIONS"]
        allowedHeaders := ["Content-Type", "Accept", "Authorization"]
        exposedHeaders := ["X-Total-Count", "X-Page-Count", "Location"]
        maxAge := 86400 }
    throttle :=
      { throttlers := [{ ttl := getD e.THROTTLE_TTL 60000, limit := getD e.THROTTLE_LIMIT 100 }]
        skipIf := decide (e.NODE_ENV ≠ some "production") }
    helmet :=
      { frameguard := .actionDeny
        noSniff := true
        hidePoweredBy := true
        dnsPrefetchControl := .allow false
        ieNoOpen := true
        hsts :=
          if e.NODE_ENV = some "production" then .enabled 31536000 true true
          else .disabled }
    logging :=
      { level := getD e.LOG_LEVEL "info"
        prettyPrint := getD e.LOG_PRETTY "false" == "true" } }

/-- The literal fallback list of local development origins in
development.config.ts. -/
def developmentDefaultOrigins : List String :=
  [ "http://localhost:3000"
  , "http://localhost:3001"
  , "http://localhost:4200"
  , "http://localhost:5173"
  , "http://localhost:8080"
  , "http://127.0.0.1:3000"
  , "http://127.0.0.1:3001" ]

/-- development.config.ts: ALLOWED_ORIGINS is fetched with no default and
tested for JavaScript truthiness (unset and the empty string are falsy),
then split on commas with each element trimmed; otherwise the literal
localhost list is used. The overlay writes cors.origin, throttle.skipIf,
helmet.hsts and the logging section. -/
def developmentConfig (e : Env) : ConfigPartial :=
  let developmentOrigins :=
    match e.ALLOWED_ORIGINS with
    | some s => if s = "" then developmentDefaultOrigins else (jsSplit s ',').map jsTrim
    | none => developmentDefaultOrigins
  { cors := some { origin := some (.list developmentOrigins) }
    throttle := some { skipIf := some true }
    helmet := some { hsts := some .disabled }
    logging := some
      { level := some (getD e.LOG_LEVEL "debug")
        prettyPrint := some (getD e.LOG_PRETTY "true" == "true") } }

/-- production.config.ts: ALLOWED_ORIGINS is fetched with the placeholder
default, split on commas and filtered through Boolean (dropping empty
chunks, with no trimming). The overlay writes cors.origin and
cors.credentials, throttle.skipIf, helmet.hsts and the logging section. -/
def productionConfig (e : Env) : ConfigPartial :=
  let allowedOrigins :=
    (jsSplit (getD e.ALLOWED_ORIGINS "https://yourdomain.com") ',').filter (fun s => !s.isEmpty)
  { cors := some
      { origin := some (.list allowedOrigins)
        credentials := some (getD e.CORS_CREDENTIALS false) }
    throttle := some { skipIf := some false }
    helmet := some { hsts := some (.enabled 31536000 true true) }
    logging := some
      { level := some (getD e.LOG_LEVEL "info")
        prettyPrint := some (getD e.LOG_PRETTY "false" == "true") } }

/-- test.config.ts: overrides app.port and app.name (but not app.env),
cors.origin, throttle.skipIf and helmet.hsts; it has no logging section. -/
def testConfig (e : Env) : ConfigPartial :=
  { app := some { port := some (getD e.PORT 3001), name := some (getD e.APP_NAME "nestjs-app-test") }
    cors := some { origin := some (.flag true) }
    throttle := some { skipIf := some true }
    helmet := some { hsts := some .disabled } }

/-- The environment name the resolver switches on:
configService.get<string>(NODE_ENV, development). -/
def envName (e : Env) : String := getD e.NODE_ENV "development"

/-- The switch statement in configuration.ts: production and test are the
two named cases; the development case and the default case share the
development overlay. -/
def selectOverlay (e : Env) : ConfigPartial :=
  if envName e = "production" then productionConfig e
  else if envName e = "test" then testConfig e
  else developmentConfig e

/-- configuration.ts: build the base table, select the overlay, and merge
section by section with a one-level spread. -/
def configuration (e : Env) : AppConfig :=
  let baseConfig := defaultConfig e
  let envConfig := selectOverlay e
  { app := spreadApp baseConfig.app envConfig.app
    cors := spreadCors baseConfig.cors envConfig.cors
    throttle := spreadThrottle baseConfig.throttle envConfig.throttle
    helmet := spreadHelmet baseConfig.helmet envConfig.helmet
    logging := spreadLogging baseConfig.logging envConfig.logging }

end NestConfig

namespace Healthcheck

/-- The events the HTTP request in healthcheck.js can deliver: a response
with a status code, an error event, or the socket-timeout event armed by
the timeout: 2000 option. -/
inductive ReqEvent
  | response (statusCode : Int)
  | connError
  | timeout
deriving DecidableEq, Repr

/-- healthcheck.js maps each delivered event to the exit code it triggers.
The response callback exits 0 on a 2xx or 3xx status or on 404 and 1
otherwise; the error listener exits 1. The script registers no listener
for the timeout event, so that event triggers no exit at all (`none`). -/
def healthcheckExit : ReqEvent → Option Nat
  | .response s =>
    if 200 ≤ s ∧ s < 400 then some 0
    else if s = 404 then some 0
    else some 1
  | .connError => some 1
  | .timeout => none

end Healthcheck

open NestConfig Healthcheck

/-! Sample snapshots used to instantiate the claim theorems. -/

/-- Snapshot with every variable unset. -/
def envNone : Env := ⟨none, none, none, none, none, none, none, none, none⟩

/-- NODE_ENV=production, everything else unset. -/
def envProduction : Env := { envNone with NODE_ENV := some "production" }

/-- NODE_ENV set to a name outside the three known variants. -/
def envStaging : Env := { envNone with NODE_ENV := some "staging" }

/-- NODE_ENV=production with ALLOWED_ORIGINS set to the empty string. -/
def envProdOriginsEmptyStr : Env :=
  { envNone with NODE_ENV := some "production", ALLOWED_ORIGINS := some "" }

/-- NODE_ENV=production with a leading space inside ALLOWED_ORIGINS. -/
def envProdOriginsSpaced : Env :=
  { envNone with NODE_ENV := some "production", ALLOWED_ORIGINS := some " https://a.com,https://b.com" }

/-- NODE_ENV=production with ALLOWED_ORIGINS=https://a.com,https://b.com. -/
def envProdAB : Env :=
  { envNone with NODE_ENV := some "production", ALLOWED_ORIGINS := some "https://a.com,https://b.com" }

/-- PORT explicitly set to 0, everything else unset. -/
def envPortZero : Env := { envNone with PORT := some 0 }

/-- PORT explicitly set to 8080, everything else unset. -/
def envPort8080 : Env := { envNone with PORT := some 8080 }

/-- CORS_CREDENTIALS=true under the development fallback. -/
def envDevCredsTrue : Env := { envNone with CORS_CREDENTIALS := some true }

/-- A helmet base section whose hsts differs from the production struct in
every field, to exhibit wholesale replacement. -/
def helmetSampleBase : HelmetSection :=
  { frameguard := .actionDeny
    noSniff := true
    hidePoweredBy := true
    dnsPrefetchControl := .allow false
    ieNoOpen := true
    hsts := .enabled 1 true false }

/-- A helmet overlay carrying only an hsts key. -/
def helmetSampleOverlay : HelmetPartial := { hsts := some .disabled }

/-- C1: every section of the resolver output is the one-level shallow merge
of the base table section with the selected overlay section: a key present
in the overlay replaces the base value, an absent key retains it, and a
nested value such as helmet.hsts supplied by the overlay replaces the base
hsts wholesale, with no reconciliation inside it. -/
theorem claim_c1 (e : Env) (b : HelmetSection) (p : HelmetPartial) (c : CorsSection) (q : CorsPartial) :
    ((configuration e).app = spreadApp (defaultConfig e).app (selectOverlay e).app
      ∧ (configuration e).cors = spreadCors (defaultConfig e).cors (selectOverlay e).cors
      ∧ (configuration e).throttle = spreadThrottle (defaultConfig e).throttle (selectOverlay e).throttle
      ∧ (configuration e).helmet = spreadHelmet (defaultConfig e).helmet (selectOverlay e).helmet
      ∧ (configuration e).logging = spreadLogging (defaultConfig e).logging (selectOverlay e).logging)
    ∧ (spreadHelmet b (some p)).hsts = getD p.hsts b.hsts
    ∧ (spreadCors c (some q)).origin = getD q.origin c.origin
    ∧ (spreadCors c (some q)).maxAge = getD q.maxAge c.maxAge
    ∧ (∀ h : HstsSetting, p.hsts = some h → (spreadHelmet b (some p)).hsts = h) := by
  refine ⟨⟨rfl, rfl, rfl, rfl, rfl⟩, rfl, rfl, rfl, ?_⟩
  intro h hh
  simp [spreadHelmet, getD, hh]

/-- C1 witness: a base hsts struct is replaced wholesale by the overlay's
hsts value at a concrete input. -/
theorem claim_c1_witness :
    (spreadHelmet helmetSampleBase (some helmetSampleOverlay)).hsts = HstsSetting.disabled :=
  (claim_c1 envNone helmetSampleBase helmetSampleOverlay
      (defaultConfig envNone).cors { }).2.2.2.2 HstsSetting.disabled rfl

/-- C2: the merged throttle.skipIf evaluates to false exactly when the
environment name is the literal production, and to true for every other
name, the development fallback included. -/
theorem claim_c2 (e : Env) :
    (envName e = "production" → (configuration e).throttle.skipIf = false)
    ∧ (envName e ≠ "production" → (configuration e).throttle.skipIf = true) := by
  constructor
  · intro h
    simp [configuration, selectOverlay, h, productionConfig, spreadThrottle, getD]
  · intro h
    by_cases ht : envName e = "test"
    · simp [configuration, selectOverlay, h, ht, testConfig, spreadThrottle, getD]
    · simp [configuration, selectOverlay, h, ht, developmentConfig, spreadThrottle, getD]

/-- C2 witness: skipIf is false under production and true under an unknown
environment name. -/
theorem claim_c2_witness :
    (configuration envProduction).throttle.skipIf = false
    ∧ (configuration envStaging).throttle.skipIf = true :=
  ⟨(claim_c2 envProduction).1 rfl, (claim_c2 envStaging).2 (by decide)⟩

/-- C3: helmet.hsts in the merged record is the fixed one-year struct under
the production name, for every snapshot, and is disabled under every other
name. -/
theorem claim_c3 (e : Env) :
    (envName e = "production" → (configuration e).helmet.hsts = HstsSetting.enabled 31536000 true true)
    ∧ (envName e ≠ "production" → (configuration e).helmet.hsts = HstsSetting.disabled) := by
  constructor
  · intro h
    simp [configuration, selectOverlay, h, productionConfig, spreadHelmet, getD]
  · intro h
    by_cases ht : envName e = "test"
    · simp [configuration, selectOverlay, h, ht, testConfig, spreadHelmet, getD]
    · simp [configuration, selectOverlay, h, ht, developmentConfig, spreadHelmet, getD]

/-- C3 witness: the production struct and the development fallback at
concrete snapshots. -/
theorem claim_c3_witness :
    (configuration envProduction).helmet.hsts = HstsSetting.enabled 31536000 true true
    ∧ (configuration envNone).helmet.hsts = HstsSetting.disabled :=
  ⟨(claim_c3 envProduction).1 rfl, (claim_c3 envNone).2 (by decide)⟩

/-- C4 counterexample: with NODE_ENV=production and ALLOWED_ORIGINS set to
the empty string, the merged cors.origin is the empty list, not the
single-element placeholder list: the placeholder default applies only when
the variable is unset, because the empty string is a defined value and
survives the lookup, and filtering drops its single empty chunk. -/
theorem claim_c4_counterexample :
    (configuration envProdOriginsEmptyStr).cors.origin = OriginSetting.list []
    ∧ (configuration envProdOriginsEmptyStr).cors.origin ≠ OriginSetting.list ["https://yourdomain.com"] := by
  decide

/-- C4 amended: in production the placeholder list appears only when
ALLOWED_ORIGINS is unset; the empty string yields an empty origin list. In
development both the unset and the empty-string snapshots fall back to the
fixed localhost list, which is non-empty and whose first element contains
the substring localhost. -/
theorem claim_c4_amended (e : Env) :
    (envName e = "production" → e.ALLOWED_ORIGINS = none →
      (configuration e).cors.origin = OriginSetting.list ["https://yourdomain.com"])
    ∧ (envName e = "production" → e.ALLOWED_ORIGINS = some "" →
      (configuration e).cors.origin = OriginSetting.list [])
    ∧ (envName e = "development" → (e.ALLOWED_ORIGINS = none ∨ e.ALLOWED_ORIGINS = some "") →
      (configuration e).cors.origin = OriginSetting.list developmentDefaultOrigins
      ∧ developmentDefaultOrigins ≠ []
      ∧ jsIncludes (developmentDefaultOrigins.headD "") "localhost" = true) := by
  refine ⟨?_, ?_, ?_⟩
  · intro h h2
    simp [configuration, selectOverlay, h, productionConfig, spreadCors, getD, h2]
    decide
  · intro h h2
    simp [configuration, selectOverlay, h, productionConfig, spreadCors, getD, h2]
    decide
  · intro h h2
    have hp : envName e ≠ "production" := by simp [h]
    have ht : envName e ≠ "test" := by simp [h]
    rcases h2 with h2 | h2 <;>
      simp [configuration, selectOverlay, hp, ht, developmentConfig, spreadCors, getD, h2] <;>
      decide

/-- C4 witness: the production placeholder and the development fallback at
concrete snapshots. -/
theorem claim_c4_witness :
    (configuration envProduction).cors.origin = OriginSetting.list ["https://yourdomain.com"]
    ∧ (configuration envNone).cors.origin = OriginSetting.list developmentDefaultOrigins :=
  ⟨(claim_c4_amended envProduction).1 rfl rfl,
   ((claim_c4_amended envNone).2.2 rfl (Or.inl rfl)).1⟩

/-- C5 counterexample: production does not trim the split elements. With
ALLOWED_ORIGINS holding a leading space before the first origin, the merged
list keeps the space, so the per-element trimming stated by the claim does
not happen in the production overlay (which filters out empty chunks
instead). -/
theorem claim_c5_counterexample :
    (configuration envProdOriginsSpaced).cors.origin = OriginSetting.list [" https://a.com", "https://b.com"]
    ∧ (configuration envProdOriginsSpaced).cors.origin ≠ OriginSetting.list ["https://a.com", "https://b.com"] := by
  decide

/-- C5 amended: the development overlay splits on commas and trims each
element; the production overlay splits on commas and drops empty elements
without trimming; in particular, production with the space-free value
https://a.com,https://b.com yields exactly that two-element list. -/
theorem claim_c5_amended (e : Env) (s : String) :
    (envName e = "production" → e.ALLOWED_ORIGINS = some s →
      (configuration e).cors.origin = OriginSetting.list ((jsSplit s ',').filter (fun x => !x.isEmpty)))
    ∧ (envName e = "development" → e.ALLOWED_ORIGINS = some s → s ≠ "" →
      (configuration e).cors.origin = OriginSetting.list ((jsSplit s ',').map jsTrim))
    ∧ (envName e = "production" → e.ALLOWED_ORIGINS = some "https://a.com,https://b.com" →
      (configuration e).cors.origin = OriginSetting.list ["https://a.com", "https://b.com"]) := by
  refine ⟨?_, ?_, ?_⟩
  · intro h h2
    simp [configuration, selectOverlay, h, productionConfig, spreadCors, getD, h2]
  · intro h h2 h3
    have hp : envName e ≠ "production" := by simp [h]
    have ht : envName e ≠ "test" := by simp [h]
    simp [configuration, selectOverlay, hp, ht, developmentConfig, spreadCors, getD, h2, h3]
  · intro h h2
    simp [configuration, selectOverlay, h, productionConfig, spreadCors, getD, h2]
    decide

/-- C5 witness: the spec's concrete production instance. -/
theorem claim_c5_witness :
    (configuration envProdAB).cors.origin = OriginSetting.list ["https://a.com", "https://b.com"] :=
  (claim_c5_amended envProdAB "https://a.com,https://b.com").2.2 rfl rfl

/-- C6: a NODE_ENV outside the three known variants, or an absent one,
selects the development overlay, so the record agrees with the one built
for the same snapshot with NODE_ENV=development on every section and field
except app.env, which carries the given name (the development default when
absent). -/
theorem claim_c6 (e : Env)
    (h1 : e.NODE_ENV ≠ some "development")
    (h2 : e.NODE_ENV ≠ some "production")
    (h3 : e.NODE_ENV ≠ some "test") :
    (configuration e).cors = (configuration { e with NODE_ENV := some "development" }).cors
    ∧ (configuration e).throttle = (configuration { e with NODE_ENV := some "development" }).throttle
    ∧ (configuration e).helmet = (configuration { e with NODE_ENV := some "development" }).helmet
    ∧ (configuration e).logging = (configuration { e with NODE_ENV := some "development" }).logging
    ∧ (configuration e).app.port = (configuration { e with NODE_ENV := some "development" }).app.port
    ∧ (configuration e).app.name = (configuration { e with NODE_ENV := some "development" }).app.name
    ∧ (configuration e).app.env = envName e := by
  have hp : envName e ≠ "production" := by
    unfold envName getD
    cases he : e.NODE_ENV with
    | none => simp
    | some n =>
      simp only [Option.getD_some]
      intro hc
      exact h2 (by rw [he, hc])
  have ht : envName e ≠ "test" := by
    unfold envName getD
    cases he : e.NODE_ENV with
    | none => simp
    | some n =>
      simp only [Option.getD_some]
      intro hc
      exact h3 (by rw [he, hc])
  simp only [envName, getD] at hp ht
  refine ⟨?_, ?_, ?_, ?_, ?_, ?_, ?_⟩ <;>
    simp [configuration, selectOverlay, envName, hp, ht, h2, defaultConfig, developmentConfig,
      spreadApp, spreadCors, spreadThrottle, spreadHelmet, spreadLogging, getD]

/-- C6 witness: an unknown name produces the development record on every
field but app.env. -/
theorem claim_c6_witness :
    (configuration envStaging).cors = (configuration { envStaging with NODE_ENV := some "development" }).cors
    ∧ (configuration envStaging).throttle = (configuration { envStaging with NODE_ENV := some "development" }).throttle
    ∧ (configuration envStaging).helmet = (configuration { envStaging with NODE_ENV := some "development" }).helmet
    ∧ (configuration envStaging).logging = (configuration { envStaging with NODE_ENV := some "development" }).logging
    ∧ (configuration envStaging).app.port = (configuration { envStaging with NODE_ENV := some "development" }).app.port
    ∧ (configuration envStaging).app.name = (configuration { envStaging with NODE_ENV := some "development" }).app.name
    ∧ (configuration envStaging).app.env = envName envStaging :=
  claim_c6 envStaging (by decide) (by decide) (by decide)

/-- C7 counterexample: the resolver does not validate PORT, so the snapshot
PORT=0 flows through and the merged app.port is 0, which is not positive. -/
theorem claim_c7_counterexample :
    (configuration envPortZero).app.port = 0
    ∧ ¬(0 < (configuration envPortZero).app.port) := by
  decide

/-- C7 amended: the merged record always carries all five sections (every
section starts from the base table) and throttle.throttlers is always the
non-empty base list; app.port is positive whenever PORT is unset or set to
a positive value, but a non-positive PORT flows through unvalidated. -/
theorem claim_c7_amended (e : Env) :
    (configuration e).throttle.throttlers ≠ []
    ∧ (e.PORT = none → 0 < (configuration e).app.port)
    ∧ (∀ p : Int, e.PORT = some p → 0 < p → 0 < (configuration e).app.port) := by
  by_cases hP : envName e = "production"
  · refine ⟨?_, ?_, ?_⟩
    · simp [configuration, selectOverlay, hP, productionConfig, spreadThrottle, defaultConfig, getD]
    · intro h
      simp [configuration, selectOverlay, hP, productionConfig, spreadApp, defaultConfig, getD, h]
    · intro p h hpos
      simp [configuration, selectOverlay, hP, productionConfig, spreadApp, defaultConfig, getD, h, hpos]
  · by_cases hT : envName e = "test"
    · refine ⟨?_, ?_, ?_⟩
      · simp [configuration, selectOverlay, hP, hT, testConfig, spreadThrottle, defaultConfig, getD]
      · intro h
        simp [configuration, selectOverlay, hP, hT, testConfig, spreadApp, defaultConfig, getD, h]
      · intro p h hpos
        simp [configuration, selectOverlay, hP, hT, testConfig, spreadApp, defaultConfig, getD, h, hpos]
    · refine ⟨?_, ?_, ?_⟩
      · simp [configuration, selectOverlay, hP, hT, developmentConfig, spreadThrottle, defaultConfig, getD]
      · intro h
        simp [configuration, selectOverlay, hP, hT, developmentConfig, spreadApp, defaultConfig, getD, h]
      · intro p h hpos
        simp [configuration, selectOverlay, hP, hT, developmentConfig, spreadApp, defaultConfig, getD, h, hpos]

/-- C7 witness: positive ports at the unset and the explicitly set
snapshots. -/
theorem claim_c7_witness :
    0 < (configuration envNone).app.port ∧ 0 < (configuration envPort8080).app.port :=
  ⟨(claim_c7_amended envNone).2.1 rfl,
   (claim_c7_amended envPort8080).2.2 8080 rfl (by decide)⟩

/-- C8: the resolver is a deterministic pure function of the environment
name and the snapshot: equal inputs give equal (deep-equal) records, the
skipIf member included, which the embedding carries as the boolean value
the closure returns. -/
theorem claim_c8 (e1 e2 : Env) (h : e1 = e2) : configuration e1 = configuration e2 := by
  rw [h]

/-- C8 witness: two calls on the empty snapshot agree. -/
theorem claim_c8_witness : configuration envNone = configuration envNone :=
  claim_c8 envNone envNone rfl

/-- C9: outside production the merged cors.credentials is false and the
whole record is independent of CORS_CREDENTIALS, which only the production
overlay reads. -/
theorem claim_c9 (e : Env) (h : envName e ≠ "production") :
    (configuration e).cors.credentials = false
    ∧ ∀ b : Option Bool, configuration { e with CORS_CREDENTIALS := b } = configuration e := by
  by_cases ht : envName e = "test"
  · constructor
    · simp [configuration, selectOverlay, h, ht, testConfig, spreadCors, defaultConfig, getD]
    · intro b
      simp [configuration, selectOverlay, envName, getD] at h ht ⊢
      simp [h, ht, testConfig, spreadApp, spreadCors, spreadThrottle, spreadHelmet, spreadLogging,
        defaultConfig, getD]
  · constructor
    · simp [configuration, selectOverlay, h, ht, developmentConfig, spreadCors, defaultConfig, getD]
    · intro b
      simp [configuration, selectOverlay, envName, getD] at h ht ⊢
      simp [h, ht, developmentConfig, spreadApp, spreadCors, spreadThrottle, spreadHelmet,
        spreadLogging, defaultConfig, getD]

/-- C9 witness: CORS_CREDENTIALS=true under the development fallback still
yields credentials = false, and flipping the variable leaves the record
unchanged. -/
theorem claim_c9_witness :
    (configuration envDevCredsTrue).cors.credentials = false
    ∧ configuration { envDevCredsTrue with CORS_CREDENTIALS := some false } = configuration envDevCredsTrue := by
  have h := claim_c9 envDevCredsTrue (by decide)
  exact ⟨h.1, h.2 (some false)⟩

/-- C10: the health-check script exits 0 exactly on a status in [200, 400)
or equal to 404 and exits 1 on every other status and on the error event;
but the timeout event armed by the timeout option has no registered
listener, so it triggers no exit at all, contradicting the documented
exit-1-on-timeout behavior. -/
theorem claim_c10 :
    (∀ s : Int, healthcheckExit (ReqEvent.response s) = some 0 ↔ ((200 ≤ s ∧ s < 400) ∨ s = 404))
    ∧ (∀ s : Int, healthcheckExit (ReqEvent.response s) = some 1 ↔ ¬((200 ≤ s ∧ s < 400) ∨ s = 404))
    ∧ healthcheckExit ReqEvent.connError = some 1
    ∧ healthcheckExit ReqEvent.timeout = none
    ∧ healthcheckExit ReqEvent.timeout ≠ some 1 := by
  refine ⟨?_, ?_, rfl, rfl, by decide⟩
  · intro s
    unfold healthcheckExit
    by_cases h1 : 200 ≤ s ∧ s < 400
    · simp [h1]
    · by_cases h2 : s = 404 <;> simp [h1, h2]
  · intro s
    unfold healthcheckExit
    by_cases h1 : 200 ≤ s ∧ s < 400
    · simp [h1]
    · by_cases h2 : s = 404 <;> simp [h1, h2]
